import Mathlib

/-!
Verification of the `threejs-dev-template` wrapper library (EZ3D).

The development shallowly embeds the JavaScript sources:

* `src/utils/colors.js` — the color resolver `parseColor` and its fixed
  named-color table `NAMED_COLORS`;
* `src/objects/GameObject.js` — the per-object transform state, the named
  animation registry (a JS `Map`, i.e. an order-preserving association
  list with replace-in-place semantics), the custom-update list, the
  chainable setters and the built-in `spin` / `float` animations;
* `src/core/Scene.js` — the tracked sequence of game objects, the backend
  render graph membership, `add` / `remove` / `findByName`;
* `src/core/Engine.js` — the `run` / `stop` lifecycle and the
  `requestAnimationFrame` continuation loop, modelled as a state machine
  counting pending scheduled continuations.

JavaScript numbers that take part in continuous arithmetic (positions,
rotations, time) are modelled as real numbers; `Math.sin` is `Real.sin`
and `THREE.MathUtils.degToRad` multiplies by `π / 180`.
-/

/-- A JavaScript value as far as `parseColor` can distinguish inputs and
produce outputs: a number, a string, a member inherited from
`Object.prototype` (a function, or for `__proto__` the prototype object —
identified here by the property name it was read under), or any value of
another type. -/
inductive JSValue where
  | num (n : Int)
  | str (s : String)
  | protoMember (name : String)
  | other
deriving DecidableEq

/-- The fixed named-color table `NAMED_COLORS` from `src/utils/colors.js`,
in source order, with the source's lower-case keys and packed hex values. -/
def NAMED_COLORS : List (String × Int) :=
  [ ("red", 0xff0000), ("green", 0x00ff00), ("blue", 0x0000ff),
    ("white", 0xffffff), ("black", 0x000000), ("yellow", 0xffff00),
    ("cyan", 0x00ffff), ("magenta", 0xff00ff),
    ("orange", 0xff8c00), ("purple", 0x8b00ff), ("pink", 0xff69b4),
    ("lime", 0x32cd32), ("teal", 0x008080), ("indigo", 0x4b0082),
    ("coral", 0xff7f50), ("salmon", 0xfa8072), ("gold", 0xffd700),
    ("silver", 0xc0c0c0),
    ("gray", 0x808080), ("grey", 0x808080), ("lightgray", 0xd3d3d3),
    ("darkgray", 0x404040),
    ("sky", 0x87ceeb), ("forest", 0x228b22), ("ocean", 0x006994),
    ("sunset", 0xff6b35), ("midnight", 0x191970), ("steel", 0x4a6fa5),
    ("copper", 0xb87333), ("bronze", 0xcd7f32) ]

/-- JavaScript `String.prototype.toLowerCase`, modelled character-wise:
`A`–`Z` lower to `a`–`z`, and U+212A KELVIN SIGN lowers to `k` — these are
the only Unicode code points whose full JS lowercase mapping is a pure
ASCII string, so the model agrees with JS lowering on whether (and where)
a string can hit the all-ASCII own keys of the color table or the
inherited `Object.prototype` names. Every other non-ASCII character is
left unchanged; JS may lower it differently, but only to strings that
still contain a non-ASCII character, so both sides miss every key and
`parseColor` returns the same raw string either way. -/
def toLowerCase (s : String) : String :=
  ⟨s.data.map (fun c => if c.toNat = 0x212A then 'k' else c.toLower)⟩

/-- Property lookup `NAMED_COLORS[key]` on the object literal, modelled as
first-match association-list lookup (the literal's keys are distinct). -/
def lookupNamed (key : String) : List (String × Int) → Option Int
  | [] => none
  | (k, v) :: rest => if k = key then some v else lookupNamed key rest

/-- The default fallback color `0x4a90d9` used by `parseColor` for inputs
that are neither numbers nor strings. -/
def defaultColor : Int := 0x4a90d9

/-- The property names `NAMED_COLORS` inherits from `Object.prototype`
(ECMA-262, including the Annex B accessors): reading any of these on the
object literal yields a defined value even though it is not an own key. -/
def OBJECT_PROTOTYPE_KEYS : List String :=
  [ "constructor", "hasOwnProperty", "isPrototypeOf", "propertyIsEnumerable",
    "toLocaleString", "toString", "valueOf", "__proto__",
    "__defineGetter__", "__defineSetter__", "__lookupGetter__", "__lookupSetter__" ]

/-- `parseColor` from `src/utils/colors.js`: numbers pass through; strings
are lower-cased and the code tests `NAMED_COLORS[lowerColor] !== undefined`
— a property access that consults the prototype chain, so it is defined
both for the table's own keys (yielding the packed color) and for names
inherited from `Object.prototype` (yielding the inherited member); only
when the access is `undefined` is the raw string returned. Input of any
other type (including such an inherited member fed back in) yields the
default color. The function is total: no code path throws. -/
def parseColor : JSValue → JSValue
  | .num n => .num n
  | .str s =>
    match lookupNamed (toLowerCase s) NAMED_COLORS with
    | some v => .num v
    | none =>
      if toLowerCase s ∈ OBJECT_PROTOTYPE_KEYS then .protoMember (toLowerCase s)
      else .str s
  | .protoMember _ => .num defaultColor
  | .other => .num defaultColor

/-- Counterexample to claim C5 as stated: the string "constructor" is not
in the fixed named-color table, yet `parseColor` does not return the raw
string — `NAMED_COLORS["constructor"]` finds the `Object.prototype`
constructor through the prototype chain and that inherited member is
returned; likewise for "__proto__". So the no-match pass-through does not
hold for every string input. -/
theorem parseColor_prototype_member_leak :
    lookupNamed (toLowerCase "constructor") NAMED_COLORS = none ∧
    parseColor (.str "constructor") ≠ .str "constructor" ∧
    parseColor (.str "constructor") = .protoMember "constructor" ∧
    parseColor (.str "__proto__") = .protoMember "__proto__" :=
  ⟨by decide, by decide, by decide, by decide⟩

/-- Claim C5 (amended): the color resolver is total (it is a Lean
function, hence never raises); numeric input is returned unchanged; string
input is matched case-insensitively (via lower-casing) against the fixed
table, returning the table value on a hit; on a table miss a string whose
lowered form names a member inherited from `Object.prototype` returns
that inherited member, and every other string is returned unchanged;
input of any other type yields the fixed default color constant. -/
theorem parseColor_resolution_spec :
    (∀ n : Int, parseColor (.num n) = .num n) ∧
    (∀ (s : String) (v : Int), lookupNamed (toLowerCase s) NAMED_COLORS = some v →
      parseColor (.str s) = .num v) ∧
    (∀ s : String, lookupNamed (toLowerCase s) NAMED_COLORS = none →
      toLowerCase s ∈ OBJECT_PROTOTYPE_KEYS →
      parseColor (.str s) = .protoMember (toLowerCase s)) ∧
    (∀ s : String, lookupNamed (toLowerCase s) NAMED_COLORS = none →
      toLowerCase s ∉ OBJECT_PROTOTYPE_KEYS →
      parseColor (.str s) = .str s) ∧
    parseColor .other = .num defaultColor ∧
    (∀ name : String, parseColor (.protoMember name) = .num defaultColor) := by
  refine ⟨fun n => rfl, fun s v h => ?_, fun s h hp => ?_, fun s h hp => ?_,
    rfl, fun name => rfl⟩
  · simp [parseColor, h]
  · simp [parseColor, h, hp]
  · simp [parseColor, h, hp]

/-- Witness for C5 at concrete inputs: "RED" hits the table entry for
"red"; "blac" followed by U+212A KELVIN SIGN lowers to "black" and hits
the table; "CONSTRUCTOR" misses the table but lowers to the inherited
`Object.prototype` name "constructor" and returns that member; the hex
literal "#ff0000" misses everything and passes through unchanged. -/
theorem parseColor_resolution_spec_witness :
    parseColor (.str "RED") = .num 0xff0000 ∧
    parseColor (.str "blacK") = .num 0x000000 ∧
    parseColor (.str "CONSTRUCTOR") = .protoMember "constructor" ∧
    parseColor (.str "#ff0000") = .str "#ff0000" := by
  have e : toLowerCase "CONSTRUCTOR" = "constructor" := by decide
  have h := parseColor_resolution_spec.2.2.1 "CONSTRUCTOR" (by decide) (by decide)
  rw [e] at h
  exact ⟨parseColor_resolution_spec.2.1 "RED" 0xff0000 (by decide),
    parseColor_resolution_spec.2.1 "blacK" 0x000000 (by decide),
    h,
    parseColor_resolution_spec.2.2.2.1 "#ff0000" (by decide) (by decide)⟩

/-! ## GameObject (`src/objects/GameObject.js`) -/

/-- A 3-component vector of real scalars (mirrors a `THREE.Vector3` /
`THREE.Euler` as far as this wrapper reads and writes it). -/
structure Vec3 where
  x : ℝ
  y : ℝ
  z : ℝ

/-- The mutable state of a game object's backend mesh that this wrapper
touches: transform components, visibility, and the material color. -/
structure Mesh where
  position : Vec3
  rotation : Vec3
  scale : Vec3
  visible : Bool
  color : JSValue

/-- An animation / update callback `(obj, delta, elapsed) => ...`, embedded
as a state transformer on the mesh state it mutates. -/
abbrev AnimFn : Type := Mesh → ℝ → ℝ → Mesh

/-- `Map.prototype.set` on a JS `Map` modelled as an association list:
replaces the value in place at the first (only) occurrence of the key,
preserving its position; appends a new entry when the key is absent. -/
def mapSet (key : String) (v : α) : List (String × α) → List (String × α)
  | [] => [(key, v)]
  | (k, w) :: rest => if k = key then (key, v) :: rest else (k, w) :: mapSet key v rest

/-- `Map.prototype.delete`: removes the (single) entry under the key if
present; no-op otherwise. -/
def mapDelete (key : String) : List (String × α) → List (String × α)
  | [] => []
  | (k, w) :: rest => if k = key then rest else (k, w) :: mapDelete key rest

/-- `Map.prototype.get` as first-match lookup. -/
def mapLookup (key : String) : List (String × α) → Option α
  | [] => none
  | (k, w) :: rest => if k = key then some w else mapLookup key rest

/-- The keys of the registry in iteration order. -/
def keysOf (m : List (String × α)) : List String := m.map Prod.fst

/-- How many entries the registry holds under a given key. -/
def countKey (key : String) (m : List (String × α)) : Nat :=
  (keysOf m).count key

/-- A game object: its name, the backend mesh state, the named animation
registry `_animations` (a JS `Map`) and the custom update list
`_customUpdates`. -/
structure GameObject where
  name : String
  mesh : Mesh
  animations : List (String × AnimFn)
  customUpdates : List AnimFn

/-- `THREE.MathUtils.degToRad`: multiply by `DEG2RAD = Math.PI / 180`. -/
noncomputable def degToRad (degrees : ℝ) : ℝ := degrees * (Real.pi / 180)

/-- `GameObject.setPosition(x, y, z)`. -/
def GameObject.setPosition (o : GameObject) (x y z : ℝ) : GameObject :=
  { o with mesh := { o.mesh with position := ⟨x, y, z⟩ } }

/-- `GameObject.setRotation(x, y, z)`: degrees in, radians stored. -/
noncomputable def GameObject.setRotation (o : GameObject) (x y z : ℝ) : GameObject :=
  { o with mesh := { o.mesh with rotation := ⟨degToRad x, degToRad y, degToRad z⟩ } }

/-- `GameObject.setScale(scale)`: uniform scalar scale. -/
def GameObject.setScale (o : GameObject) (scale : ℝ) : GameObject :=
  { o with mesh := { o.mesh with scale := ⟨scale, scale, scale⟩ } }

/-- `GameObject.setScaleXYZ(x, y, z)`. -/
def GameObject.setScaleXYZ (o : GameObject) (x y z : ℝ) : GameObject :=
  { o with mesh := { o.mesh with scale := ⟨x, y, z⟩ } }

/-- `GameObject.setColor(color)`: stores the parsed color on the material. -/
def GameObject.setColor (o : GameObject) (c : JSValue) : GameObject :=
  { o with mesh := { o.mesh with color := parseColor c } }

/-- `GameObject.setVisible(visible)`. -/
def GameObject.setVisible (o : GameObject) (v : Bool) : GameObject :=
  { o with mesh := { o.mesh with visible := v } }

/-- `GameObject.onUpdate(fn)`: appends to the custom update list. -/
def GameObject.onUpdate (o : GameObject) (fn : AnimFn) : GameObject :=
  { o with customUpdates := o.customUpdates ++ [fn] }

/-- `GameObject._setAnimation(name, fn)`: `this._animations.set(name, fn)` —
adds or replaces the named animation. -/
def GameObject.setAnimation (o : GameObject) (name : String) (fn : AnimFn) : GameObject :=
  { o with animations := mapSet name fn o.animations }

/-- `GameObject.stopAnimation(name)`: `this._animations.delete(name)`. -/
def GameObject.stopAnimation (o : GameObject) (name : String) : GameObject :=
  { o with animations := mapDelete name o.animations }

/-- `GameObject.clearAnimations()`: empties both the named registry and the
custom update list. -/
def GameObject.clearAnimations (o : GameObject) : GameObject :=
  { o with animations := [], customUpdates := [] }

/-- `GameObject.update(delta, elapsed)`: runs every named animation in
registry iteration order, then every custom update in append order; each
callback observes the mesh mutations of the previous ones. -/
def GameObject.update (o : GameObject) (delta elapsed : ℝ) : GameObject :=
  let afterNamed := o.animations.foldl (fun m p => p.2 m delta elapsed) o.mesh
  let afterCustom := o.customUpdates.foldl (fun m fn => fn m delta elapsed) afterNamed
  { o with mesh := afterCustom }

/-- The callback registered by `spin`: increments each rotation component
by `speed * delta`. -/
def spinFn (speedX speedY speedZ : ℝ) : AnimFn :=
  fun m delta _ =>
    { m with rotation :=
        ⟨m.rotation.x + speedX * delta,
         m.rotation.y + speedY * delta,
         m.rotation.z + speedZ * delta⟩ }

/-- `GameObject.spin({speedX = 0, speedY = 1, speedZ = 0})`: registers
`spinFn` under the name "spin". -/
def GameObject.spin (o : GameObject) (speedX speedY speedZ : ℝ) : GameObject :=
  o.setAnimation "spin" (spinFn speedX speedY speedZ)

/-- The callback registered by `float`: sets the Y position to
`startY + Math.sin(elapsed * speed) * amplitude`. -/
noncomputable def floatFn (startY amplitude speed : ℝ) : AnimFn :=
  fun m _ elapsed =>
    { m with position :=
        { m.position with y := startY + Real.sin (elapsed * speed) * amplitude } }

/-- `GameObject.float({amplitude = 0.5, speed = 1})`: captures the current
Y position as `startY`, then registers `floatFn` under the name "float". -/
noncomputable def GameObject.float (o : GameObject) (amplitude speed : ℝ) : GameObject :=
  o.setAnimation "float" (floatFn o.mesh.position.y amplitude speed)

/-- The constructor options of `GameObject` that this model tracks, with
the source's default values. -/
structure GameObjectOptions where
  name : String := ""
  color : JSValue := .num 0x4a90d9
  x : ℝ := 0
  y : ℝ := 0
  z : ℝ := 0
  rotationX : ℝ := 0
  rotationY : ℝ := 0
  rotationZ : ℝ := 0
  scale : ℝ := 1

/-- The `GameObject` constructor: creates the mesh (with the parsed
material color and default visibility), then applies `setPosition`,
`setRotation` (degrees → radians) and `setScale` in source order, starting
with an empty animation registry and custom update list. -/
noncomputable def mkGameObject (opts : GameObjectOptions) : GameObject :=
  let base : GameObject :=
    { name := opts.name
      mesh :=
        { position := ⟨0, 0, 0⟩, rotation := ⟨0, 0, 0⟩, scale := ⟨1, 1, 1⟩,
          visible := true, color := parseColor opts.color }
      animations := []
      customUpdates := [] }
  ((base.setPosition opts.x opts.y opts.z).setRotation
      opts.rotationX opts.rotationY opts.rotationZ).setScale opts.scale

/-- Looking up the key just set returns the value just set. -/
theorem mapLookup_mapSet_self (key : String) (v : α) (m : List (String × α)) :
    mapLookup key (mapSet key v m) = some v := by
  induction m with
  | nil => simp [mapSet, mapLookup]
  | cons p rest ih =>
    obtain ⟨k, w⟩ := p
    by_cases h : k = key
    · simp [mapSet, mapLookup, h]
    · simp [mapSet, mapLookup, h, ih]

/-- Claim C3: `spin` with `speedY = 1` and zero X/Z speeds registers
`spinFn 0 1 0` under the name "spin", and running that registered callback
once with `delta = 1` increases the Y rotation by exactly `1` radian while
leaving the X and Z rotation components unchanged. -/
theorem spin_unit_delta_rotates_y_by_one :
    ∀ (o : GameObject) (m : Mesh) (elapsed : ℝ),
      mapLookup "spin" (o.spin 0 1 0).animations = some (spinFn 0 1 0) ∧
      (spinFn 0 1 0 m 1 elapsed).rotation.y = m.rotation.y + 1 ∧
      (spinFn 0 1 0 m 1 elapsed).rotation.x = m.rotation.x ∧
      (spinFn 0 1 0 m 1 elapsed).rotation.z = m.rotation.z := by
  intro o m elapsed
  refine ⟨?_, ?_, ?_, ?_⟩
  · exact mapLookup_mapSet_self "spin" (spinFn 0 1 0) o.animations
  · simp [spinFn]
  · simp [spinFn]
  · simp [spinFn]

/-- Claim C4: `float(amplitude = 0.5, speed = 1)` captures the Y position
at call time as the oscillation center and registers a callback setting
`y = center + sin(elapsed * speed) * amplitude`; that callback yields the
captured center at `elapsed = 0` and `center + 0.5` at `elapsed = π/2`. -/
theorem float_captures_center_and_oscillates :
    ∀ (o : GameObject) (c delta : ℝ) (m : Mesh),
      mapLookup "float" (o.float 0.5 1).animations
        = some (floatFn o.mesh.position.y 0.5 1) ∧
      (∀ elapsed : ℝ, (floatFn c 0.5 1 m delta elapsed).position.y
        = c + Real.sin (elapsed * 1) * 0.5) ∧
      (floatFn c 0.5 1 m delta 0).position.y = c ∧
      (floatFn c 0.5 1 m delta (Real.pi / 2)).position.y = c + 0.5 := by
  intro o c delta m
  refine ⟨?_, fun elapsed => rfl, ?_, ?_⟩
  · exact mapLookup_mapSet_self "float" (floatFn o.mesh.position.y 0.5 1) o.animations
  · simp [floatFn]
  · simp [floatFn, Real.sin_pi_div_two]

/-- Claim C8: rotation angles given in degrees — whether at construction or
through `setRotation` — are stored as the angle times `π / 180` (radians),
never as degrees. -/
theorem rotation_stored_in_radians :
    (∀ (o : GameObject) (x y z : ℝ),
      (o.setRotation x y z).mesh.rotation.x = x * (Real.pi / 180) ∧
      (o.setRotation x y z).mesh.rotation.y = y * (Real.pi / 180) ∧
      (o.setRotation x y z).mesh.rotation.z = z * (Real.pi / 180)) ∧
    (∀ opts : GameObjectOptions,
      (mkGameObject opts).mesh.rotation.x = opts.rotationX * (Real.pi / 180) ∧
      (mkGameObject opts).mesh.rotation.y = opts.rotationY * (Real.pi / 180) ∧
      (mkGameObject opts).mesh.rotation.z = opts.rotationZ * (Real.pi / 180)) := by
  constructor
  · intro o x y z
    exact ⟨rfl, rfl, rfl⟩
  · intro opts
    refine ⟨?_, ?_, ?_⟩ <;>
      simp [mkGameObject, GameObject.setScale, GameObject.setRotation,
        GameObject.setPosition, degToRad]

/-- Every key of `mapSet key v m` is the new key or a key of `m`. -/
theorem mem_keysOf_mapSet (key x : String) (v : α) (m : List (String × α)) :
    x ∈ keysOf (mapSet key v m) → x = key ∨ x ∈ keysOf m := by
  induction m with
  | nil => simp [mapSet, keysOf]
  | cons p rest ih =>
    obtain ⟨k, w⟩ := p
    by_cases h : k = key
    · simp [mapSet, keysOf, h]
    · simp only [mapSet, keysOf, h, if_false, List.map_cons, List.mem_cons]
      intro hx
      rcases hx with hx | hx
      · exact Or.inr (Or.inl hx)
      · rcases ih hx with hx' | hx'
        · exact Or.inl hx'
        · exact Or.inr (Or.inr hx')

/-- `mapSet` preserves distinctness of the registry's keys. -/
theorem nodup_keysOf_mapSet (key : String) (v : α) (m : List (String × α))
    (h : (keysOf m).Nodup) : (keysOf (mapSet key v m)).Nodup := by
  induction m with
  | nil => simp [mapSet, keysOf]
  | cons p rest ih =>
    obtain ⟨k, w⟩ := p
    simp only [keysOf, List.map_cons, List.nodup_cons] at h
    by_cases hk : k = key
    · subst hk
      simpa [mapSet, keysOf] using h
    · have h' := ih h.2
      simp only [mapSet, hk, if_false, keysOf, List.map_cons, List.nodup_cons]
      refine ⟨fun hmem => ?_, h'⟩
      rcases mem_keysOf_mapSet key k v rest hmem with rfl | hmem'
      · exact hk rfl
      · exact h.1 hmem'

/-- `mapDelete` yields a sublist of the original registry. -/
theorem mapDelete_sublist (key : String) (m : List (String × α)) :
    (mapDelete key m).Sublist m := by
  induction m with
  | nil => simp [mapDelete]
  | cons p rest ih =>
    obtain ⟨k, w⟩ := p
    by_cases h : k = key
    · simp only [mapDelete, h, if_true]
      exact List.sublist_cons_of_sublist _ (List.Sublist.refl rest)
    · simp only [mapDelete, h, if_false]
      exact List.Sublist.cons₂ _ ih

/-- `mapDelete` preserves distinctness of the registry's keys. -/
theorem nodup_keysOf_mapDelete (key : String) (m : List (String × α))
    (h : (keysOf m).Nodup) : (keysOf (mapDelete key m)).Nodup :=
  h.sublist ((mapDelete_sublist key m).map Prod.fst)

/-- The key just set is among the keys afterwards. -/
theorem mem_keysOf_mapSet_self (key : String) (v : α) (m : List (String × α)) :
    key ∈ keysOf (mapSet key v m) := by
  induction m with
  | nil => simp [mapSet, keysOf]
  | cons p rest ih =>
    obtain ⟨k, w⟩ := p
    by_cases h : k = key
    · simp [mapSet, keysOf, h]
    · simp only [mapSet, h, if_false, keysOf, List.map_cons, List.mem_cons]
      exact Or.inr ih

/-- The game-object states reachable through the public API of
`GameObject`: constructed by the constructor and transformed by the
chainable setters, the animation registration / removal operations, the
built-in animations and the per-frame update. -/
inductive GOReachable : GameObject → Prop where
  | create (opts : GameObjectOptions) : GOReachable (mkGameObject opts)
  | setPosition (o : GameObject) (x y z : ℝ) :
      GOReachable o → GOReachable (o.setPosition x y z)
  | setRotation (o : GameObject) (x y z : ℝ) :
      GOReachable o → GOReachable (o.setRotation x y z)
  | setScale (o : GameObject) (s : ℝ) :
      GOReachable o → GOReachable (o.setScale s)
  | setScaleXYZ (o : GameObject) (x y z : ℝ) :
      GOReachable o → GOReachable (o.setScaleXYZ x y z)
  | setColor (o : GameObject) (c : JSValue) :
      GOReachable o → GOReachable (o.setColor c)
  | setVisible (o : GameObject) (v : Bool) :
      GOReachable o → GOReachable (o.setVisible v)
  | onUpdate (o : GameObject) (fn : AnimFn) :
      GOReachable o → GOReachable (o.onUpdate fn)
  | setAnimation (o : GameObject) (name : String) (fn : AnimFn) :
      GOReachable o → GOReachable (o.setAnimation name fn)
  | stopAnimation (o : GameObject) (name : String) :
      GOReachable o → GOReachable (o.stopAnimation name)
  | clearAnimations (o : GameObject) :
      GOReachable o → GOReachable o.clearAnimations
  | update (o : GameObject) (delta elapsed : ℝ) :
      GOReachable o → GOReachable (o.update delta elapsed)
  | spin (o : GameObject) (speedX speedY speedZ : ℝ) :
      GOReachable o → GOReachable (o.spin speedX speedY speedZ)
  | float (o : GameObject) (amplitude speed : ℝ) :
      GOReachable o → GOReachable (o.float amplitude speed)

/-- Invariant: every reachable game object has a registry with distinct
animation names. -/
theorem reachable_nodup_keys (o : GameObject) (h : GOReachable o) :
    (keysOf o.animations).Nodup := by
  induction h with
  | create opts =>
    simp [mkGameObject, GameObject.setPosition, GameObject.setRotation,
      GameObject.setScale, keysOf]
  | setPosition o x y z _ ih => exact ih
  | setRotation o x y z _ ih => exact ih
  | setScale o s _ ih => exact ih
  | setScaleXYZ o x y z _ ih => exact ih
  | setColor o c _ ih => exact ih
  | setVisible o v _ ih => exact ih
  | onUpdate o fn _ ih => exact ih
  | setAnimation o name fn _ ih => exact nodup_keysOf_mapSet name fn _ ih
  | stopAnimation o name _ ih => exact nodup_keysOf_mapDelete name _ ih
  | clearAnimations o _ _ => simp [GameObject.clearAnimations, keysOf]
  | update o delta elapsed _ ih => exact ih
  | spin o sx sy sz _ ih => exact nodup_keysOf_mapSet "spin" _ _ ih
  | float o a s _ ih => exact nodup_keysOf_mapSet "float" _ _ ih

/-- Claim C2: registering `f` then `g` under the same animation name on any
reachable game object leaves exactly one entry under that name, and that
entry is `g`; moreover no reachable game object's registry ever holds two
entries under one name. -/
theorem animation_registry_latest_wins :
    (∀ (o : GameObject), GOReachable o → ∀ name : String, countKey name o.animations ≤ 1) ∧
    (∀ (o : GameObject) (name : String) (f g : AnimFn), GOReachable o →
      countKey name ((o.setAnimation name f).setAnimation name g).animations = 1 ∧
      mapLookup name ((o.setAnimation name f).setAnimation name g).animations = some g) := by
  have count_le : ∀ (o : GameObject), GOReachable o →
      ∀ name : String, countKey name o.animations ≤ 1 := by
    intro o h name
    exact List.nodup_iff_count_le_one.mp (reachable_nodup_keys o h) name
  refine ⟨count_le, fun o name f g h => ?_⟩
  have h2 : GOReachable ((o.setAnimation name f).setAnimation name g) :=
    GOReachable.setAnimation _ name g (GOReachable.setAnimation _ name f h)
  have hle := count_le _ h2 name
  have hmem : name ∈ keysOf ((o.setAnimation name f).setAnimation name g).animations :=
    mem_keysOf_mapSet_self name g _
  have hpos : 0 < countKey name ((o.setAnimation name f).setAnimation name g).animations :=
    List.count_pos_iff.mpr hmem
  exact ⟨le_antisymm hle hpos, mapLookup_mapSet_self name g _⟩

/-- Witness for C2 at a concrete input: on a freshly constructed game
object, registering `spinFn 0 1 0` and then the identity callback under
the name "spin" leaves one "spin" entry whose value is the identity
callback. -/
theorem animation_registry_latest_wins_witness :
    countKey "spin" (((mkGameObject {}).setAnimation "spin" (spinFn 0 1 0)).setAnimation
      "spin" (fun m _ _ => m)).animations = 1 ∧
    mapLookup "spin" (((mkGameObject {}).setAnimation "spin" (spinFn 0 1 0)).setAnimation
      "spin" (fun m _ _ => m)).animations = some (fun m _ _ => m) :=
  animation_registry_latest_wins.2 (mkGameObject {}) "spin" (spinFn 0 1 0)
    (fun m _ _ => m) (GOReachable.create {})

/-- `mapSet` on a key already present replaces the value in the entry's
original slot, leaving every other entry and all positions unchanged. -/
theorem mapSet_replaces_in_place (key : String) (f g : α) (m₁ m₂ : List (String × α))
    (h : key ∉ keysOf m₁) :
    mapSet key g (m₁ ++ (key, f) :: m₂) = m₁ ++ (key, g) :: m₂ := by
  induction m₁ with
  | nil => simp [mapSet]
  | cons p rest ih =>
    obtain ⟨k, w⟩ := p
    simp only [keysOf, List.map_cons, List.mem_cons] at h
    push_neg at h
    have hk : k ≠ key := fun hkey => h.1 hkey.symm
    simp only [List.cons_append, mapSet, hk, if_false, List.cons.injEq, true_and]
    exact ih h.2

/-- Claim C9: re-registering an update function under an animation name
already present in the registry keeps that name in its original slot of
the iteration order (the surrounding entries and their order are
untouched), so during `update` the replacement runs where the name was
first inserted, not at the end; the key sequence is unchanged. -/
theorem setAnimation_reuses_original_slot :
    ∀ (o : GameObject) (m₁ m₂ : List (String × AnimFn)) (name : String) (f g : AnimFn),
      o.animations = m₁ ++ (name, f) :: m₂ →
      name ∉ keysOf m₁ →
      (o.setAnimation name g).animations = m₁ ++ (name, g) :: m₂ ∧
      keysOf (o.setAnimation name g).animations = keysOf o.animations := by
  intro o m₁ m₂ name f g ho hm
  have hrepl : (o.setAnimation name g).animations = m₁ ++ (name, g) :: m₂ := by
    simp only [GameObject.setAnimation, ho]
    exact mapSet_replaces_in_place name f g m₁ m₂ hm
  refine ⟨hrepl, ?_⟩
  simp [hrepl, ho, keysOf]

/-- The identity update callback (a no-op animation). -/
def idAnim : AnimFn := fun m _ _ => m

/-- A concrete mesh state used by concrete-input witnesses. -/
def demoMesh : Mesh :=
  { position := ⟨0, 0, 0⟩, rotation := ⟨0, 0, 0⟩, scale := ⟨1, 1, 1⟩,
    visible := true, color := .num 0 }

/-- A concrete game object whose registry holds "glow" then "spin". -/
def demoObject : GameObject :=
  { name := "demo", mesh := demoMesh,
    animations := [("glow", idAnim), ("spin", spinFn 0 1 0)],
    customUpdates := [] }

/-- Witness for C9 at a concrete input: replacing "spin" behind an earlier
entry "glow" leaves "spin" in the second slot with the new callback, and
the key order ["glow", "spin"] is unchanged. -/
theorem setAnimation_reuses_original_slot_witness :
    (demoObject.setAnimation "spin" idAnim).animations
      = [("glow", idAnim), ("spin", idAnim)] ∧
    keysOf (demoObject.setAnimation "spin" idAnim).animations
      = ["glow", "spin"] := by
  have h := setAnimation_reuses_original_slot demoObject
    [("glow", idAnim)] [] "spin" (spinFn 0 1 0) idAnim rfl (by simp [keysOf])
  exact ⟨h.1, by rw [h.2]; rfl⟩

/-! ## Scene (`src/core/Scene.js`) -/

/-- A reference to a tracked game object as the `Scene` sees it: `id` is
the JavaScript reference identity (used by `indexOf`), `name` the lookup
key of `findByName`. The object's mesh node in the render graph is
identified by the same `id`. -/
structure GORef where
  id : Nat
  name : String
deriving DecidableEq

/-- An argument passed to `Scene.add` / `Scene.remove`, by the shape the
code dispatches on: a game object (truthy `mesh` property), a raw backend
`THREE.Object3D` node, some other non-nullish value (no `mesh` property,
not an `Object3D`), or `null` / `undefined`. -/
inductive SceneArg where
  | gameObj (g : GORef)
  | object3D (node : Nat)
  | plainOther
  | nullish

/-- The scene state: the tracked sequence `gameObjects` and the children
of the backend `THREE.Scene` render graph (mesh nodes of game objects are
identified by their owner's `id`). -/
structure SceneState where
  gameObjects : List GORef
  graph : List Nat

/-- `indexOf` + `splice(index, 1)`: remove the first occurrence (by
reference identity) if present; unchanged otherwise. -/
def removeFirst (g : GORef) : List GORef → List GORef
  | [] => []
  | h :: t => if h = g then t else h :: removeFirst g t

/-- `Scene.add(object)`: a game object is pushed onto the tracked sequence
and its mesh inserted into the render graph; a raw `Object3D` goes into
the render graph only; any other non-nullish value is ignored. The method
returns `this` — modelled by returning the resulting state. Reading
`object.mesh` on `null` / `undefined` throws a `TypeError`, modelled as
`none`. -/
def Scene.add (s : SceneState) : SceneArg → Option SceneState
  | .gameObj g => some { s with gameObjects := s.gameObjects ++ [g], graph := s.graph ++ [g.id] }
  | .object3D node => some { s with graph := s.graph ++ [node] }
  | .plainOther => some s
  | .nullish => none

/-- `Scene.remove(object)`: the mirror of `Scene.add`. For a game object,
the first occurrence in the tracked sequence is spliced out (no-op when
untracked) and its mesh removed from the render graph; for a raw
`Object3D`, only the render graph changes; other non-nullish values are
ignored; `null` / `undefined` throws. -/
def Scene.remove (s : SceneState) : SceneArg → Option SceneState
  | .gameObj g =>
    some { s with gameObjects := removeFirst g s.gameObjects, graph := s.graph.erase g.id }
  | .object3D node => some { s with graph := s.graph.erase node }
  | .plainOther => some s
  | .nullish => none

/-- `Scene.findByName(name)`: first-match linear scan of the tracked
sequence; `undefined` (here `none`) when absent. -/
def Scene.findByName (s : SceneState) (name : String) : Option GORef :=
  s.gameObjects.find? (fun o => o.name == name)

/-- Claim C7: starting from a scene whose tracked sequence is empty,
adding a game object and then removing the same object leaves the tracked
sequence empty, and `findByName` on that object's name finds nothing. -/
theorem add_then_remove_leaves_scene_empty :
    ∀ (graph : List Nat) (g : GORef),
      Option.map SceneState.gameObjects
        ((Scene.add ⟨[], graph⟩ (.gameObj g)).bind
          (fun s => Scene.remove s (.gameObj g))) = some [] ∧
      Option.map (fun s => Scene.findByName s g.name)
        ((Scene.add ⟨[], graph⟩ (.gameObj g)).bind
          (fun s => Scene.remove s (.gameObj g))) = some none := by
  intro graph g
  constructor
  · simp [Scene.add, Scene.remove, removeFirst]
  · simp [Scene.add, Scene.remove, removeFirst, Scene.findByName]

/-- Counterexample to claim C10 as stated: `null` (and `undefined`) is a
value that neither has a `mesh` property nor is a render-graph node, yet
`Scene.add(null)` does not return the scene unchanged — reading
`object.mesh` throws a `TypeError` (modelled by `none`), and so does
`Scene.remove(null)`. -/
theorem add_remove_nullish_throws :
    Scene.add ⟨[], []⟩ .nullish = none ∧ Scene.remove ⟨[], []⟩ .nullish = none :=
  ⟨rfl, rfl⟩

/-- Claim C10 (amended): for every scene and every non-nullish argument
value that neither has a `mesh` property nor is a backend render-graph
node, `Scene.add` and `Scene.remove` raise no error, leave both the
tracked sequence and the render graph unchanged, and return the scene
itself for chaining (the unchanged state). Arguments that are `null` or
`undefined` instead throw a `TypeError` when their `mesh` property is
read. -/
theorem add_remove_ignore_foreign_values :
    ∀ s : SceneState, Scene.add s .plainOther = some s ∧ Scene.remove s .plainOther = some s := by
  intro s
  exact ⟨rfl, rfl⟩

/-! ## Engine (`src/core/Engine.js`) -/

/-- The engine state as the run/stop lifecycle sees it: the `isRunning`
flag, the active scene (by identity), the number of `requestAnimationFrame`
continuations currently scheduled by this engine, and how many scene
updates (with their draw calls) have been performed. -/
structure EngineState where
  isRunning : Bool
  activeScene : Option Nat
  pending : Nat
  updates : Nat
deriving DecidableEq

/-- A freshly constructed engine: not running, no active scene, nothing
scheduled. -/
def Engine.init : EngineState :=
  { isRunning := false, activeScene := none, pending := 0, updates := 0 }

/-- The body of `Engine._animate()`: if the engine is not running, return
immediately; otherwise schedule one further continuation through
`requestAnimationFrame`, then — when an active scene exists — update it
and issue one draw call (counted in `updates`). -/
def Engine.animateBody (e : EngineState) : EngineState :=
  if e.isRunning then
    let e1 := { e with pending := e.pending + 1 }
    match e1.activeScene with
    | some _ => { e1 with updates := e1.updates + 1 }
    | none => e1
  else e

/-- `Engine.run(scene)`: set the active scene, set the running flag, and
invoke `_animate()` synchronously. -/
def Engine.run (e : EngineState) (scene : Nat) : EngineState :=
  Engine.animateBody { e with activeScene := some scene, isRunning := true }

/-- `Engine.stop()`: clear the running flag (nothing is unscheduled). -/
def Engine.stop (e : EngineState) : EngineState :=
  { e with isRunning := false }

/-- The host firing one scheduled frame continuation: one pending
continuation is consumed and `_animate()` runs. With nothing scheduled
there is nothing to fire. -/
def Engine.tick (e : EngineState) : EngineState :=
  if e.pending = 0 then e
  else Engine.animateBody { e with pending := e.pending - 1 }

/-- Claim C1 evaluated at its failing input, `run` called twice while the
loop keeps running: the second `run` replaces the active scene but starts
a second continuation chain — two continuations are scheduled instead of
at most one, the two chains persist across the following frame, and the
scene is updated twice per frame from then on. -/
theorem run_while_running_doubles_continuations :
    (Engine.run (Engine.run Engine.init 1) 2).pending = 2 ∧
    (Engine.run (Engine.run Engine.init 1) 2).activeScene = some 2 ∧
    (Engine.tick (Engine.tick (Engine.run (Engine.run Engine.init 1) 2))).pending = 2 ∧
    (Engine.tick (Engine.tick (Engine.run (Engine.run Engine.init 1) 2))).updates
      = (Engine.run (Engine.run Engine.init 1) 2).updates + 2 := by
  refine ⟨rfl, rfl, rfl, rfl⟩

/-- Claim C6: on a running engine with its one scheduled continuation in
flight, `stop()` followed by that continuation's tick performs no scene
update (the callback early-returns on the cleared flag) and leaves nothing
scheduled. -/
theorem stop_then_tick_is_inert (e : EngineState)
    (hrun : e.isRunning = true) (hpend : e.pending = 1) :
    (Engine.tick (Engine.stop e)).updates = e.updates ∧
    (Engine.tick (Engine.stop e)).pending = 0 ∧
    (Engine.tick (Engine.stop e)).isRunning = false := by
  simp [Engine.tick, Engine.stop, Engine.animateBody, hpend]

/-- Witness for C6 at a concrete input: a running engine with scene 1
active, one continuation scheduled and three updates performed so far. -/
theorem stop_then_tick_is_inert_witness :
    (Engine.tick (Engine.stop ⟨true, some 1, 1, 3⟩)).updates = 3 ∧
    (Engine.tick (Engine.stop ⟨true, some 1, 1, 3⟩)).pending = 0 ∧
    (Engine.tick (Engine.stop ⟨true, some 1, 1, 3⟩)).isRunning = false :=
  stop_then_tick_is_inert ⟨true, some 1, 1, 3⟩ rfl rfl
